import Mathlib

/-!
# Verification of the ODTrack Academia backend core

Shallow embedding of the OD-request lifecycle service
(`backend/app/services/od_service.py`), the HTTP endpoint guards
(`backend/app/api/api_v1/endpoints/od_requests.py`), the request schemas
(`backend/app/schemas/od_request.py`) and the analytics aggregator
(`backend/app/services/analytics_service.py`).

Conventions of the embedding:
* SQLAlchemy timestamps are modelled as `Int` instants; `now` is passed
  explicitly to each operation that reads the clock.
* The database table `od_requests` is modelled as a `List ODRequest`
  (insertion order); a committed update replaces the row with the same id.
* Pydantic `Optional` fields with `exclude_set` dumping are modelled as
  `Option`: `none` means the field was not set in the request body.
* `ORDER BY created_at DESC` is modelled as a stable insertion sort by
  the relation `fun a b => b.created_at ≤ a.created_at`; SQL leaves the
  relative order of equal keys unspecified, and none of the proved
  statements depends on that tie order.
* FastAPI `HTTPException`s raised by the endpoints are modelled as an
  `ApiError` sum; operations that can raise return `Except ApiError _`.
-/

namespace ODTrack

/-- Error kinds raised at the endpoint boundary, named after the spec's
error table (§7): 403 → `Forbidden`, 404 → `NotFound`, 422 → `ValidationError`,
409 → `Conflict`. -/
inductive ApiError where
  | Forbidden
  | NotFound
  | ValidationError
  | Conflict
deriving Repr, DecidableEq

/-- `app.models.user.User` restricted to the fields the OD endpoints read:
`id`, `role` (a plain string: "student" | "staff" | "admin" | "superuser"),
`is_active`. -/
structure User where
  id : Nat
  role : String
  is_active : Bool
deriving Repr, DecidableEq

/-- Row of the `od_requests` table (`app/models/od_request.py`).
`status` is a plain `String` column exactly as in the model (the code never
constrains it to the `ODStatus` enum values on write). -/
structure ODRequest where
  id : Nat
  student_id : Nat
  register_number : String
  student_name : String
  date : Int
  periods : List Int
  reason : String
  attachment_url : Option String
  status : String
  approved_by_id : Option Nat
  approved_at : Option Int
  rejection_reason : Option String
  created_at : Int
  updated_at : Option Int
deriving Repr, DecidableEq

/-- `app/schemas/od_request.py` lines 6-15: `ODRequestCreate` declares only
typed fields (`date: datetime`, `periods: List[int]`, `reason: str`,
`attachment_url: Optional[str]`, `register_number: str`, `student_name: str`)
and no validators, so pydantic accepts every well-typed payload: an empty
`periods` list, non-positive period indices and an empty `reason` all pass.
The Lean type therefore carries no side conditions. -/
structure ODRequestCreate where
  date : Int
  periods : List Int
  reason : String
  attachment_url : Option String
  register_number : String
  student_name : String
deriving Repr, DecidableEq

/-- `app/schemas/od_request.py` lines 17-19: both fields `Optional`, defaulted
to `None`; `model_dump(exclude_unset=True)` later drops unset fields, which
`none` models. -/
structure ODRequestUpdate where
  status : Option String
  rejection_reason : Option String
deriving Repr, DecidableEq

/-- `ODService.create` (`od_service.py` lines 51-60): builds the row from the
payload dump plus `student_id` and `status="pending"`; every other column
keeps its model default (`approved_by_id`, `approved_at`, `rejection_reason`
NULL, `created_at` = `func.now()`, `updated_at` NULL until first update).
`new_id` stands for the autoincrement key assigned on commit. -/
def ODService.create (obj_in : ODRequestCreate) (student_id : Nat)
    (new_id : Nat) (now : Int) : ODRequest :=
  { id := new_id
    student_id := student_id
    register_number := obj_in.register_number
    student_name := obj_in.student_name
    date := obj_in.date
    periods := obj_in.periods
    reason := obj_in.reason
    attachment_url := obj_in.attachment_url
    status := "pending"
    approved_by_id := none
    approved_at := none
    rejection_reason := none
    created_at := now
    updated_at := none }

/-- `ODService.update_status` (`od_service.py` lines 62-76): if the dumped
`status` is "approved" or "rejected", set `approved_by_id` and `approved_at`;
then copy every set field of the dump onto the row verbatim; commit refreshes
`updated_at` via the column's `onupdate=func.now()`. There is no check of the
row's current status, no validation of the new status value, and no check
that a rejection carries a reason. -/
def ODService.update_status (db_obj : ODRequest) (obj_in : ODRequestUpdate)
    (approver_id : Nat) (now : Int) : ODRequest :=
  let step1 :=
    if obj_in.status = some "approved" ∨ obj_in.status = some "rejected" then
      { db_obj with approved_by_id := some approver_id, approved_at := some now }
    else db_obj
  let step2 :=
    match obj_in.status with
    | some s => { step1 with status := s }
    | none => step1
  let step3 :=
    match obj_in.rejection_reason with
    | some r => { step2 with rejection_reason := some r }
    | none => step2
  { step3 with updated_at := some now }

/-- Replace the row with the given id (the committed write of an update). -/
def commitRow (db : List ODRequest) (request_id : Nat) (row : ODRequest) :
    List ODRequest :=
  db.map (fun r => if r.id = request_id then row else r)

/-- `create_od_request` endpoint (`od_requests.py` lines 11-25): any
authenticated principal whose role is not "student" gets 403; otherwise the
service persists the new row and the endpoint returns it. Result is the
returned record together with the table after the commit. -/
def create_od_request (db : List ODRequest) (od_in : ODRequestCreate)
    (current_user : User) (new_id : Nat) (now : Int) :
    Except ApiError (ODRequest × List ODRequest) :=
  if current_user.role ≠ "student" then .error .Forbidden
  else
    let od_request := ODService.create od_in current_user.id new_id now
    .ok (od_request, db ++ [od_request])

/-- `update_od_status` endpoint (`od_requests.py` lines 58-79): 403 unless the
role is staff/admin/superuser, 404 if the id does not resolve, then the
service update is applied unconditionally — there is no `Conflict` path and
no `ValidationError` path anywhere in the endpoint or the service. -/
def update_od_status (db : List ODRequest) (request_id : Nat)
    (status_update : ODRequestUpdate) (current_user : User) (now : Int) :
    Except ApiError (ODRequest × List ODRequest) :=
  if ¬ (current_user.role = "staff" ∨ current_user.role = "admin" ∨
        current_user.role = "superuser") then .error .Forbidden
  else
    match db.find? (fun r => r.id = request_id) with
    | none => .error .NotFound
    | some od_request =>
        let updated := ODService.update_status od_request status_update
          current_user.id now
        .ok (updated, commitRow db request_id updated)

/-- Interleaving of two concurrent `update_od_status` calls on the same
request in which BOTH reads happen before either write (the race of spec §5):
each call runs `od_service.get` against the initial table, then the two
service updates commit in sequence. Returns the two endpoint results and the
final table. The reads-first schedule is the one the spec's concurrency
contract is about: both callers observe the same (pending) row. -/
def race_update (db : List ODRequest) (request_id : Nat)
    (u1 u2 : User) (upd1 upd2 : ODRequestUpdate) (t1 t2 : Int) :
    Except ApiError ODRequest × Except ApiError ODRequest × List ODRequest :=
  let auth := fun (u : User) =>
    u.role = "staff" ∨ u.role = "admin" ∨ u.role = "superuser"
  let fetched := db.find? (fun r => r.id = request_id)
  match fetched with
  | none => (.error .NotFound, .error .NotFound, db)
  | some od_request =>
      let res1 : Except ApiError ODRequest :=
        if ¬ auth u1 then .error .Forbidden
        else .ok (ODService.update_status od_request upd1 u1.id t1)
      let db1 :=
        match res1 with
        | .ok row => commitRow db request_id row
        | .error _ => db
      let res2 : Except ApiError ODRequest :=
        if ¬ auth u2 then .error .Forbidden
        else .ok (ODService.update_status od_request upd2 u2.id t2)
      let db2 :=
        match res2 with
        | .ok row => commitRow db1 request_id row
        | .error _ => db1
      (res1, res2, db2)

/-- Newest-first ordering used by every list query:
`ORDER BY created_at DESC`. -/
def newerFirst (a b : ODRequest) : Prop := b.created_at ≤ a.created_at

instance : DecidableRel newerFirst :=
  fun a b => Int.decLe b.created_at a.created_at

instance : IsTotal ODRequest newerFirst :=
  ⟨fun a b => Int.le_total b.created_at a.created_at⟩

instance : IsTrans ODRequest newerFirst :=
  ⟨fun _ _ _ h1 h2 => le_trans h2 h1⟩

/-- `ODService.get_multi_by_student` (`od_service.py` lines 18-26):
`SELECT ... WHERE student_id = X ORDER BY created_at DESC OFFSET skip LIMIT
limit` (SQLAlchemy composes one SELECT, so ordering applies before the
offset/limit window regardless of builder-method order). -/
def ODService.get_multi_by_student (db : List ODRequest) (student_id : Nat)
    (skip : Nat) (limit : Nat) : List ODRequest :=
  ((((db.filter (fun r => r.student_id = student_id)).insertionSort
      newerFirst).drop skip).take limit)

/-- Distinct values of a list in first-appearance order.  Models the key set
of a pandas `value_counts` over the column. -/
def distinctsFirst {α : Type} [DecidableEq α] : List α → List α
  | [] => []
  | a :: l => a :: distinctsFirst (l.filter (fun b => b ≠ a))
termination_by l => l.length
decreasing_by
  simp only [List.length_cons]
  exact Nat.lt_succ_of_le (List.length_filter_le _ l)

/-- Ordering of `(value, count)` pairs by count descending, the order
`pandas.Series.value_counts` guarantees for its result. -/
def countDesc {α : Type} (p q : α × Nat) : Prop := q.2 ≤ p.2

instance {α : Type} : DecidableRel (countDesc (α := α)) :=
  fun p q => Nat.decLe q.2 p.2

instance {α : Type} : IsTotal (α × Nat) countDesc :=
  ⟨fun p q => Nat.le_total q.2 p.2⟩

instance {α : Type} : IsTrans (α × Nat) countDesc :=
  ⟨fun _ _ _ h1 h2 => le_trans h2 h1⟩

/-- `pandas.Series.value_counts().to_dict()`: one `(value, count)` pair per
distinct value, counts in descending order.  pandas leaves the relative
order of equal counts implementation-defined; the embedding determinizes it
(first appearance, stable sort) and no proved statement relies on that
choice. -/
def valueCounts {α : Type} [DecidableEq α] (xs : List α) : List (α × Nat) :=
  ((distinctsFirst xs).map (fun v => (v, xs.count v))).insertionSort countDesc

/-- Result shape of `AnalyticsService.get_stats`.  The Python function
returns a plain dict whose key set differs between the empty and non-empty
branches; the two `Option` fields model the presence or absence of the
`top_students` and `top_student_ids` keys. -/
structure DashboardStats where
  total_requests : Nat
  status_distribution : List (String × Nat)
  top_students : Option (List Nat)
  top_student_ids : Option (List (Nat × Nat))
deriving Repr, DecidableEq

/-- `AnalyticsService.get_stats` (`analytics_service.py` lines 8-52): fetch
all requests; on an empty set return
`{total_requests: 0, status_distribution: {}, top_students: []}`; otherwise
build the DataFrame and return `total_requests = len(df)`,
`status_distribution = value_counts(status)`, and — under the DIFFERENT key
`top_student_ids` — `value_counts(student_id).head(5)` as an id→count
mapping. -/
def AnalyticsService.get_stats (od_requests : List ODRequest) :
    DashboardStats :=
  if od_requests.isEmpty then
    { total_requests := 0
      status_distribution := []
      top_students := some []
      top_student_ids := none }
  else
    { total_requests := od_requests.length
      status_distribution := valueCounts (od_requests.map (fun r => r.status))
      top_students := none
      top_student_ids :=
        some ((valueCounts (od_requests.map (fun r => r.student_id))).take 5) }

/-- Sum of the counts of a distribution (`sum(d.values())`). -/
def sumCounts {α : Type} (d : List (α × Nat)) : Nat :=
  (d.map (fun p => p.2)).sum

/-! Concrete sample data used by counterexamples and witnesses. -/

/-- A pending request as freshly created by student 7. -/
def rPending : ODRequest :=
  { id := 1, student_id := 7, register_number := "R1", student_name := "S1",
    date := 0, periods := [1, 2, 3], reason := "Sports Meet",
    attachment_url := none, status := "pending", approved_by_id := none,
    approved_at := none, rejection_reason := none, created_at := 0,
    updated_at := none }

/-- The row after staff 10 approves `rPending` at instant 1. -/
def rApproved : ODRequest :=
  { rPending with
    status := "approved", approved_by_id := some 10,
    approved_at := some 1, updated_at := some 1 }

/-- The row after staff 11 re-approves at instant 2 (overwriting). -/
def rApproved2 : ODRequest :=
  { rPending with
    status := "approved", approved_by_id := some 11,
    approved_at := some 2, updated_at := some 2 }

def staff1 : User := { id := 10, role := "staff", is_active := true }

def staff2 : User := { id := 11, role := "staff", is_active := true }

def student7 : User := { id := 7, role := "student", is_active := true }

def approvePayload : ODRequestUpdate :=
  { status := some "approved", rejection_reason := none }

/-- A create payload with the fields of spec §8's scenario. -/
def payload0 : ODRequestCreate :=
  { date := 0, periods := [1, 2, 3], reason := "Sports Meet",
    attachment_url := none, register_number := "R1", student_name := "S1" }

/-- A create payload violating every §4.1 validation rule: empty `periods`,
a non-positive period would also pass, empty `reason`. -/
def payloadBad : ODRequestCreate :=
  { date := 0, periods := [], reason := "",
    attachment_url := none, register_number := "R1", student_name := "S1" }

/-- The row produced by an update carrying the out-of-domain status
"bogus". -/
def rBogus : ODRequest :=
  { rPending with status := "bogus", updated_at := some 1 }

/-- The row produced by a rejection that carries no rejection reason. -/
def rRejectedNR : ODRequest :=
  { rPending with
    status := "rejected", approved_by_id := some 10,
    approved_at := some 1, updated_at := some 1 }

/-- The row persisted for the invalid payload `payloadBad`. -/
def rBad : ODRequest :=
  { rPending with periods := [], reason := "" }

end ODTrack

namespace ODTrack

/-! ## Helper lemmas -/

/-- Elements of `distinctsFirst xs` come from `xs`. -/
theorem mem_of_mem_distinctsFirst {α : Type} [DecidableEq α] :
    ∀ (xs : List α), ∀ v ∈ distinctsFirst xs, v ∈ xs := by
  intro xs
  induction xs using distinctsFirst.induct with
  | case1 => intro v hv; simp [distinctsFirst] at hv
  | case2 a l ih =>
      intro v hv
      rw [distinctsFirst] at hv
      rcases List.mem_cons.mp hv with h1 | h1
      · exact h1 ▸ List.mem_cons_self a l
      · exact List.mem_cons_of_mem a (List.mem_of_mem_filter (ih v h1))

/-- Splitting a list's length into the occurrences of `a` and the rest. -/
theorem length_filter_ne_add_count {α : Type} [DecidableEq α]
    (l : List α) (a : α) :
    (l.filter (fun b => b ≠ a)).length + l.count a = l.length := by
  induction l with
  | nil => simp
  | cons x xs ih =>
      simp only [ne_eq, decide_not] at ih
      by_cases h : x = a
      · subst h
        simp [List.filter_cons, List.count_cons_self]
        omega
      · simp [List.filter_cons, List.count_cons, h, Ne.symm h]
        omega

/-- The counts listed by `distinctsFirst` add up to the list's length. -/
theorem distinctsFirst_sum_count {α : Type} [DecidableEq α] (xs : List α) :
    ((distinctsFirst xs).map (fun v => xs.count v)).sum = xs.length := by
  induction xs using distinctsFirst.induct with
  | case1 => simp [distinctsFirst]
  | case2 a l ih =>
      rw [distinctsFirst, List.map_cons, List.sum_cons]
      have hmap : (distinctsFirst (l.filter (fun b => b ≠ a))).map
            (fun v => (a :: l).count v)
          = (distinctsFirst (l.filter (fun b => b ≠ a))).map
            (fun v => (l.filter (fun b => b ≠ a)).count v) := by
        apply List.map_congr_left
        intro v hv
        have hvf : v ∈ l.filter (fun b => b ≠ a) :=
          mem_of_mem_distinctsFirst _ v hv
        have hvna : v ≠ a := by
          have := (List.mem_filter.mp hvf).2
          simpa using this
        rw [List.count_cons_of_ne hvna, ← List.count_filter (p := fun b => b ≠ a)]
        simp [hvna]
      rw [hmap, ih, List.count_cons_self, List.length_cons]
      have := length_filter_ne_add_count l a
      omega

/-- `sum(status_distribution.values())` over a `value_counts` equals the
column length. -/
theorem sumCounts_valueCounts {α : Type} [DecidableEq α] (xs : List α) :
    sumCounts (valueCounts xs) = xs.length := by
  unfold sumCounts valueCounts
  have hperm :
      List.Perm
        ((((distinctsFirst xs).map (fun v => (v, xs.count v))).insertionSort
          countDesc).map (fun p => p.2))
        (((distinctsFirst xs).map (fun v => (v, xs.count v))).map
          (fun p => p.2)) :=
    (List.perm_insertionSort countDesc _).map _
  rw [hperm.sum_eq, List.map_map]
  exact distinctsFirst_sum_count xs

/-- Every pair listed by `value_counts` carries the exact occurrence count
of its key. -/
theorem snd_of_mem_valueCounts {α : Type} [DecidableEq α] {xs : List α}
    {p : α × Nat} (h : p ∈ valueCounts xs) : p.2 = xs.count p.1 := by
  unfold valueCounts at h
  rw [(List.perm_insertionSort countDesc _).mem_iff] at h
  rcases List.mem_map.mp h with ⟨v, _, rfl⟩
  rfl

/-- `value_counts` output is sorted by count, descending. -/
theorem valueCounts_sorted {α : Type} [DecidableEq α] (xs : List α) :
    List.Sorted countDesc (valueCounts xs) :=
  List.sorted_insertionSort countDesc _

/-! ## Claim theorems -/

/-- C1: the claim states that any `updateStatus` on an already-finalized
(non-Pending) request fails with `Conflict` and leaves the stored request
unchanged.  The code has no such guard: evaluated at the failing input — the
store holding the already-approved row `rApproved` (result of staff 10's
transition at instant 1) and a second approval by staff 11 at instant 2 —
the endpoint succeeds and overwrites `approved_by_id`, `approved_at` and
`updated_at`. -/
theorem c1_second_update_overwrites :
    update_od_status [rPending] 1 approvePayload staff1 1
        = .ok (rApproved, [rApproved])
    ∧ update_od_status [rApproved] 1 approvePayload staff2 2
        = .ok (rApproved2, [rApproved2])
    ∧ rApproved2 ≠ rApproved :=
  ⟨rfl, rfl, by decide⟩

/-- C2: every successful create by a student principal returns (and
persists, as the appended row) a request with status "pending", no
approver, no approval timestamp, and `student_id` equal to the caller's
id. -/
theorem c2_create_student_pending (db : List ODRequest)
    (od_in : ODRequestCreate) (u : User) (new_id : Nat) (now : Int)
    (h : u.role = "student") :
    ∃ r, create_od_request db od_in u new_id now = .ok (r, db ++ [r])
      ∧ r.status = "pending" ∧ r.approved_by_id = none
      ∧ r.approved_at = none ∧ r.student_id = u.id := by
  refine ⟨ODService.create od_in u.id new_id now, ?_, rfl, rfl, rfl, rfl⟩
  unfold create_od_request
  rw [if_neg (by simp [h])]

/-- C2 witness: the theorem applied to the concrete scenario of spec §8. -/
theorem c2_create_student_pending_witness :
    student7.role = "student"
    ∧ ∃ r, create_od_request [] payload0 student7 1 0 = .ok (r, [] ++ [r])
      ∧ r.status = "pending" ∧ r.approved_by_id = none
      ∧ r.approved_at = none ∧ r.student_id = student7.id :=
  ⟨rfl, c2_create_student_pending [] payload0 student7 1 0 rfl⟩

/-- C3 counterexample: the claim states that an update whose status is
neither "approved" nor "rejected" fails with `ValidationError` without
mutating the store.  At the concrete input — status "bogus" on the pending
row — the endpoint instead succeeds and the stored row changes. -/
theorem c3_invalid_status_counterexample :
    update_od_status [rPending] 1 ⟨some "bogus", none⟩ staff1 1
        = .ok (rBogus, [rBogus])
    ∧ rBogus ≠ rPending :=
  ⟨rfl, by decide⟩

/-- C3 amended: an update whose status is neither "approved" nor "rejected"
does not fail; it writes the provided status string verbatim to the row,
leaves `approved_by_id` and `approved_at` unchanged, and commits. -/
theorem c3_invalid_status_amended (db : List ODRequest) (rid : Nat)
    (u : User) (s : String) (rr : Option String) (now : Int) (r : ODRequest)
    (hrole : u.role = "staff" ∨ u.role = "admin" ∨ u.role = "superuser")
    (hs1 : s ≠ "approved") (hs2 : s ≠ "rejected")
    (hfind : db.find? (fun x => x.id = rid) = some r) :
    ∃ r2, update_od_status db rid ⟨some s, rr⟩ u now
        = .ok (r2, commitRow db rid r2)
      ∧ r2.status = s
      ∧ r2.approved_by_id = r.approved_by_id
      ∧ r2.approved_at = r.approved_at := by
  refine ⟨ODService.update_status r ⟨some s, rr⟩ u.id now, ?_, ?_, ?_, ?_⟩
  · unfold update_od_status
    rw [if_neg (not_not_intro hrole), hfind]
  all_goals cases rr <;> simp [ODService.update_status, hs1, hs2]

/-- C3 witness: the amended theorem applied to the "bogus" update on the
pending row. -/
theorem c3_invalid_status_amended_witness :
    (staff1.role = "staff" ∨ staff1.role = "admin"
      ∨ staff1.role = "superuser")
    ∧ ("bogus" : String) ≠ "approved" ∧ ("bogus" : String) ≠ "rejected"
    ∧ [rPending].find? (fun x => x.id = 1) = some rPending
    ∧ ∃ r2, update_od_status [rPending] 1 ⟨some "bogus", none⟩ staff1 1
          = .ok (r2, commitRow [rPending] 1 r2)
        ∧ r2.status = "bogus"
        ∧ r2.approved_by_id = rPending.approved_by_id
        ∧ r2.approved_at = rPending.approved_at :=
  ⟨Or.inl rfl, by decide, by decide, rfl,
    c3_invalid_status_amended [rPending] 1 staff1 "bogus" none 1 rPending
      (Or.inl rfl) (by decide) (by decide) rfl⟩

/-- C4 counterexample: the claim states that a rejection with an absent
rejection reason fails with `ValidationError` and mutates nothing.  At the
concrete input — status "rejected", no reason, on the pending row — the
endpoint instead succeeds: the row is finalized as rejected with no stored
reason. -/
theorem c4_reject_no_reason_counterexample :
    update_od_status [rPending] 1 ⟨some "rejected", none⟩ staff1 1
        = .ok (rRejectedNR, [rRejectedNR])
    ∧ rRejectedNR.rejection_reason = none
    ∧ rRejectedNR ≠ rPending :=
  ⟨rfl, rfl, by decide⟩

/-- C4 amended: a rejection whose rejection reason is absent or empty does
not fail; the row is finalized as rejected with the approver and timestamp
set, the missing reason notwithstanding. -/
theorem c4_reject_no_reason_amended (db : List ODRequest) (rid : Nat)
    (u : User) (rr : Option String) (now : Int) (r : ODRequest)
    (hrole : u.role = "staff" ∨ u.role = "admin" ∨ u.role = "superuser")
    (hrr : rr = none ∨ rr = some "")
    (hfind : db.find? (fun x => x.id = rid) = some r) :
    ∃ r2, update_od_status db rid ⟨some "rejected", rr⟩ u now
        = .ok (r2, commitRow db rid r2)
      ∧ r2.status = "rejected"
      ∧ r2.approved_by_id = some u.id
      ∧ r2.approved_at = some now := by
  refine ⟨ODService.update_status r ⟨some "rejected", rr⟩ u.id now,
    ?_, ?_, ?_, ?_⟩
  · unfold update_od_status
    rw [if_neg (not_not_intro hrole), hfind]
  all_goals rcases hrr with h | h <;> subst h <;>
    simp [ODService.update_status]

/-- C4 witness: the amended theorem applied to the reason-less rejection of
the pending row. -/
theorem c4_reject_no_reason_amended_witness :
    (staff1.role = "staff" ∨ staff1.role = "admin"
      ∨ staff1.role = "superuser")
    ∧ ((none : Option String) = none ∨ (none : Option String) = some "")
    ∧ [rPending].find? (fun x => x.id = 1) = some rPending
    ∧ ∃ r2, update_od_status [rPending] 1 ⟨some "rejected", none⟩ staff1 1
          = .ok (r2, commitRow [rPending] 1 r2)
        ∧ r2.status = "rejected"
        ∧ r2.approved_by_id = some staff1.id
        ∧ r2.approved_at = some 1 :=
  ⟨Or.inl rfl, Or.inl rfl, rfl,
    c4_reject_no_reason_amended [rPending] 1 staff1 none 1 rPending
      (Or.inl rfl) (Or.inl rfl) rfl⟩

/-- C5 counterexample: the claim states that a student create with empty
periods or an empty reason fails with `ValidationError` and persists
nothing.  At the concrete input — empty `periods` and empty `reason` — the
create instead succeeds and the row is persisted as given. -/
theorem c5_invalid_payload_counterexample :
    create_od_request [] payloadBad student7 1 0 = .ok (rBad, [rBad])
    ∧ rBad.periods = [] ∧ rBad.reason = "" ∧ rBad.status = "pending" :=
  ⟨rfl, rfl, rfl, rfl⟩

/-- C5 amended: the schema performs only type-level validation, so a create
by a student succeeds for every well-typed payload — empty periods,
non-positive indices and empty reasons included — and persists the payload
fields verbatim with status "pending". -/
theorem c5_create_accepts_any_payload (db : List ODRequest)
    (od_in : ODRequestCreate) (u : User) (new_id : Nat) (now : Int)
    (h : u.role = "student") :
    ∃ r, create_od_request db od_in u new_id now = .ok (r, db ++ [r])
      ∧ r.periods = od_in.periods ∧ r.reason = od_in.reason
      ∧ r.date = od_in.date ∧ r.status = "pending" := by
  refine ⟨ODService.create od_in u.id new_id now, ?_, rfl, rfl, rfl, rfl⟩
  unfold create_od_request
  rw [if_neg (by simp [h])]

/-- C5 witness: the amended theorem applied to the invalid payload. -/
theorem c5_create_accepts_any_payload_witness :
    student7.role = "student"
    ∧ ∃ r, create_od_request [] payloadBad student7 1 0 = .ok (r, [] ++ [r])
      ∧ r.periods = payloadBad.periods ∧ r.reason = payloadBad.reason
      ∧ r.date = payloadBad.date ∧ r.status = "pending" :=
  ⟨rfl, c5_create_accepts_any_payload [] payloadBad student7 1 0 rfl⟩

/-- C6: for every request set, the counts of `status_distribution` add up
to `total_requests` — trivially on the empty set (both are zero) and via
the `value_counts` sum on a non-empty set. -/
theorem c6_distribution_sums_to_total (reqs : List ODRequest) :
    sumCounts (AnalyticsService.get_stats reqs).status_distribution
      = (AnalyticsService.get_stats reqs).total_requests := by
  unfold AnalyticsService.get_stats
  by_cases h : reqs.isEmpty
  · simp [h, sumCounts]
  · simp only [h, Bool.false_eq_true, if_false]
    rw [sumCounts_valueCounts, List.length_map]

/-- C7 counterexample: the claim states that for every request set the
result carries a `topStudents` sequence of studentIds.  At the concrete
non-empty input `[rPending]` the result has no `top_students` key at all;
the component present is the id-to-count mapping under `top_student_ids`. -/
theorem c7_top_students_counterexample :
    (AnalyticsService.get_stats [rPending]).top_students = none
    ∧ (AnalyticsService.get_stats [rPending]).top_student_ids
        = some [(7, 1)] :=
  ⟨rfl, by
    simp [AnalyticsService.get_stats, valueCounts, distinctsFirst,
      List.insertionSort, rPending]⟩

/-- C7 amended: on the empty request set the result carries
`top_students = []`; on a non-empty set it instead carries, under the key
`top_student_ids`, a mapping of at most five studentIds to request counts
with the counts in descending order (the order among equal counts is the
iteration order of the code, not an ascending-studentId tie-break). -/
theorem c7_top_component_amended (reqs : List ODRequest) :
    (reqs = [] →
      (AnalyticsService.get_stats reqs).top_students = some [])
    ∧ (reqs ≠ [] →
      ∃ m, (AnalyticsService.get_stats reqs).top_student_ids = some m
        ∧ m.length ≤ 5 ∧ List.Sorted countDesc m) := by
  constructor
  · intro h; subst h; rfl
  · intro h
    have hne : reqs.isEmpty = false := by
      cases reqs with
      | nil => exact absurd rfl h
      | cons a l => rfl
    refine ⟨(valueCounts (reqs.map (fun r => r.student_id))).take 5,
      ?_, ?_, ?_⟩
    · simp [AnalyticsService.get_stats, hne]
    · rw [List.length_take]
      exact min_le_left _ _
    · exact List.Pairwise.sublist (List.take_sublist 5 _)
        (valueCounts_sorted _)

/-- C7 witness: the amended theorem applied to the one-request set. -/
theorem c7_top_component_amended_witness :
    ∃ m, (AnalyticsService.get_stats [rPending]).top_student_ids = some m
      ∧ m.length ≤ 5 ∧ List.Sorted countDesc m :=
  (c7_top_component_amended [rPending]).2 (List.cons_ne_nil _ _)

/-- C8: `listMine` returns only requests owned by the requested student,
newest-first (`created_at` descending), and the `(skip, limit)` page is
exactly the corresponding contiguous slice of the full newest-first
ordering, which in turn is a permutation of all the rows owned by that
student. -/
theorem c8_listMine_pagination (db : List ODRequest)
    (sid skip limit : Nat) (_h : 0 < limit) :
    (∀ r ∈ ODService.get_multi_by_student db sid skip limit,
        r.student_id = sid)
    ∧ List.Sorted newerFirst
        (ODService.get_multi_by_student db sid skip limit)
    ∧ ODService.get_multi_by_student db sid skip limit
        = ((ODService.get_multi_by_student db sid 0 db.length).drop
            skip).take limit
    ∧ List.Perm (ODService.get_multi_by_student db sid 0 db.length)
        (db.filter (fun r => r.student_id = sid)) := by
  have hL : ODService.get_multi_by_student db sid 0 db.length
      = (db.filter (fun r => r.student_id = sid)).insertionSort
          newerFirst := by
    unfold ODService.get_multi_by_student
    rw [List.drop_zero, List.take_of_length_le]
    rw [(List.perm_insertionSort newerFirst _).length_eq]
    exact List.length_filter_le _ _
  refine ⟨?_, ?_, ?_, ?_⟩
  · intro r hr
    have h1 : r ∈ ((db.filter (fun x => x.student_id = sid)).insertionSort
        newerFirst).drop skip := (List.take_sublist limit _).subset hr
    have h2 : r ∈ (db.filter (fun x => x.student_id = sid)).insertionSort
        newerFirst := (List.drop_sublist skip _).subset h1
    have h3 : r ∈ db.filter (fun x => x.student_id = sid) :=
      (List.perm_insertionSort newerFirst _).mem_iff.mp h2
    have h4 := (List.mem_filter.mp h3).2
    simpa using h4
  · exact List.Pairwise.sublist
      ((List.take_sublist limit _).trans (List.drop_sublist skip _))
      (List.sorted_insertionSort newerFirst _)
  · rw [hL]
    rfl
  · rw [hL]
    exact List.perm_insertionSort _ _

/-- C8 witness: the theorem applied to the one-request store with
`skip = 0`, `limit = 2`. -/
theorem c8_listMine_pagination_witness :
    0 < 2
    ∧ ((∀ r ∈ ODService.get_multi_by_student [rPending] 7 0 2,
          r.student_id = 7)
      ∧ List.Sorted newerFirst
          (ODService.get_multi_by_student [rPending] 7 0 2)
      ∧ ODService.get_multi_by_student [rPending] 7 0 2
          = ((ODService.get_multi_by_student [rPending] 7 0
              ([rPending] : List ODRequest).length).drop 0).take 2
      ∧ List.Perm (ODService.get_multi_by_student [rPending] 7 0
            ([rPending] : List ODRequest).length)
          ([rPending].filter (fun r => r.student_id = 7))) :=
  ⟨by decide, c8_listMine_pagination [rPending] 7 0 2 (by decide)⟩

/-- C9: the claim states that of two concurrent `updateStatus` calls that
both observe the pending state, exactly one succeeds and the persisted
write itself re-checks the prior status.  The code's write is
unconditional: in the reads-first interleaving at the failing input — two
staff approvals of request 1, both reading the pending row — both calls
return success, neither receives `Conflict`, and the second write silently
overwrites the first approver's decision. -/
theorem c9_race_both_succeed :
    race_update [rPending] 1 staff1 staff2 approvePayload approvePayload 1 2
        = (.ok rApproved, .ok rApproved2, [rApproved2])
    ∧ rApproved ≠ rApproved2 :=
  ⟨rfl, by decide⟩

/-- C10: the result shape of `get_stats` differs between the empty and
non-empty request sets: empty input yields exactly
`{total_requests := 0, status_distribution := {}, top_students := []}`
(no `top_student_ids` key), while non-empty input yields no `top_students`
key and a `top_student_ids` mapping in which every listed studentId is
paired with its exact request count. -/
theorem c10_result_shape (reqs : List ODRequest) :
    (reqs = [] →
      AnalyticsService.get_stats reqs
        = { total_requests := 0, status_distribution := [],
            top_students := some [], top_student_ids := none })
    ∧ (reqs ≠ [] →
      (AnalyticsService.get_stats reqs).top_students = none
      ∧ ∃ m, (AnalyticsService.get_stats reqs).top_student_ids = some m
        ∧ ∀ p ∈ m, p.2 = (reqs.map (fun r => r.student_id)).count p.1) := by
  constructor
  · intro h; subst h; rfl
  · intro h
    have hne : reqs.isEmpty = false := by
      cases reqs with
      | nil => exact absurd rfl h
      | cons a l => rfl
    constructor
    · simp [AnalyticsService.get_stats, hne]
    · refine ⟨(valueCounts (reqs.map (fun r => r.student_id))).take 5,
        ?_, ?_⟩
      · simp [AnalyticsService.get_stats, hne]
      · intro p hp
        exact snd_of_mem_valueCounts ((List.take_sublist 5 _).subset hp)

/-- C10 witness: the theorem applied to the empty set and to the
one-request set. -/
theorem c10_result_shape_witness :
    AnalyticsService.get_stats []
        = { total_requests := 0, status_distribution := [],
            top_students := some [], top_student_ids := none }
    ∧ ((AnalyticsService.get_stats [rPending]).top_students = none
      ∧ ∃ m, (AnalyticsService.get_stats [rPending]).top_student_ids
            = some m
        ∧ ∀ p ∈ m,
            p.2 = ([rPending].map (fun r => r.student_id)).count p.1) :=
  ⟨(c10_result_shape []).1 rfl,
   (c10_result_shape [rPending]).2 (List.cons_ne_nil _ _)⟩

end ODTrack
